import Mathlib

/-!
Verification of the agent-simulation core (memory manager, reflection engine,
planning engine, decision loop) against its natural-language specification.
The Python sources are shallowly embedded: float arithmetic is modelled exactly
over `ℚ` (and over `ℝ` where the code computes with `math.exp`/`math.log`),
`datetime` values are rationals counting seconds, fallible calls are `Except`
values, and Python's stable `sorted`/`list.sort` is `List.mergeSort`.
-/

/-- Python exceptions that the embedded code distinguishes. -/
inductive PyErr where
  | typeError
  | valueError
  | err (msg : String)
deriving DecidableEq

/-- Enum `MemoryType` from `models/memory.py`. -/
inductive MemoryType where
  | perception
  | action
  | reflection
  | dialogue
  | plan
deriving DecidableEq

/-- Model `Memory` from `models/memory.py`: id, owning agent, content, type,
creation timestamp (seconds), importance score (0-10 float, modelled as `ℚ`),
optional embedding reference, optional location. -/
structure Memory where
  id : String
  agent_id : String
  content : String
  memory_type : MemoryType
  timestamp : ℚ
  importance_score : ℚ
  embedding_id : Option String
  location : Option String
deriving DecidableEq

/-- Model of the mutable `AgentState` fields that the reflection engine touches
(`models/agent.py`). -/
structure AgentState where
  importance_accumulator : ℚ
  last_reflection_time : Option ℚ
deriving DecidableEq

/-- Comparator used to model `ORDER BY timestamp DESC` (newest first). -/
def tsDesc (a b : Memory) : Bool := decide (b.timestamp ≤ a.timestamp)

/-- Comparator used to model Python `sorted(key=importance, reverse=True)`:
stable descending order by importance score. -/
def impDesc (a b : Memory) : Bool := decide (b.importance_score ≤ a.importance_score)

/-- Embed `SQLiteStore.get_recent_memories` (storage/sqlite_store.py:218-271).
The store is the list of persisted rows; `now` is `datetime.now()` in seconds.
Truthiness of the Python arguments is modelled faithfully: a `since` datetime is
always truthy; `hours` filters only when present and non-zero (`elif hours:`);
`memory_types` filters only when the list is non-empty. -/
def SQLiteStore.get_recent_memories (rows : List Memory) (agent_id : String)
    (limit : Nat) (memory_types : Option (List MemoryType)) (since : Option ℚ)
    (hours : Option ℚ) (now : ℚ) : List Memory :=
  let timeOk : Memory → Bool := fun m =>
    match since with
    | some s => decide (s ≤ m.timestamp)
    | none =>
      match hours with
      | some h => if h = 0 then true else decide (now - h * 3600 ≤ m.timestamp)
      | none => true
  let typeOk : Memory → Bool := fun m =>
    match memory_types with
    | some ts => if ts.isEmpty then true else ts.contains m.memory_type
    | none => true
  ((rows.filter (fun m =>
      decide (m.agent_id = agent_id) && timeOk m && typeOk m)).mergeSort tsDesc).take limit

/-- Embed `MemoryManager.get_recent_memories` (agents/memory_manager.py:190-213).
The wrapper accepts `limit` and `hours` but forwards only `agent_id` and `limit`
to the store: no `since`, `hours` or `memory_types` argument is passed, so the
store applies no lookback-window filter. -/
def MemoryManager.get_recent_memories (rows : List Memory) (agent_id : String)
    (limit : Nat) (hours : ℚ) (now : ℚ) : List Memory :=
  SQLiteStore.get_recent_memories rows agent_id limit none none none now

/-- Embed `ReflectionEngine._get_reflection_memories`
(agents/reflection_engine.py:144-178): take the wrapper's recent memories
(limit 50, hours 72 — the hours argument is dropped by the wrapper), keep the
non-REFLECTION ones, sort by importance descending (Python `sorted` with
`reverse=True` is stable) and keep the top 20. -/
def ReflectionEngine.get_reflection_memories (rows : List Memory)
    (agent_id : String) (now : ℚ) : List Memory :=
  let recent := MemoryManager.get_recent_memories rows agent_id 50 72 now
  let nonReflection := recent.filter (fun m => decide (m.memory_type ≠ MemoryType.reflection))
  (nonReflection.mergeSort impDesc).take 20

/-- Claimed candidate-gathering rule, written from the spec sentence for C2:
last at most 50 memories created within the last 72 hours, excluding
REFLECTION memories, sorted by importance descending, truncated to top 20.
Kept separate from `ReflectionEngine.get_reflection_memories` so the two can be
compared. -/
def reflectionCandidatesClaim (rows : List Memory) (agent_id : String)
    (now : ℚ) : List Memory :=
  let recent := SQLiteStore.get_recent_memories rows agent_id 50 none none (some 72) now
  let nonReflection := recent.filter (fun m => decide (m.memory_type ≠ MemoryType.reflection))
  (nonReflection.mergeSort impDesc).take 20

/-- Model `Reflection` from `models/memory.py` (fields used by the engine). -/
structure Reflection where
  agent_id : String
  content : String
  supporting_memories : List String
  importance_score : ℚ
deriving DecidableEq

/-- Python `str.strip()` on a character list. -/
def pyStrip (s : List Char) : List Char :=
  ((s.dropWhile Char.isWhitespace).reverse.dropWhile Char.isWhitespace).reverse

/-- Embed `ReflectionEngine._create_reflection`
(agents/reflection_engine.py:180-210): strip the insight, drop a leading
enumeration marker `1.`..`5.` (Python `split(sep, 1)[1]` after the startswith
check), record supporting memory ids and fixed importance 8.0. -/
def ReflectionEngine.create_reflection (agent_id : String) (insight : String)
    (supporting : List Memory) : Reflection :=
  let stripped := pyStrip insight.toList
  let cleaned :=
    match stripped with
    | c1 :: c2 :: rest =>
      if (c1 = ('1' : Char) ∨ c1 = ('2' : Char) ∨ c1 = ('3' : Char) ∨
          c1 = ('4' : Char) ∨ c1 = ('5' : Char)) ∧ c2 = ('.' : Char) then
        pyStrip rest
      else stripped
    | l => l
  { agent_id := agent_id
    content := String.mk cleaned
    supporting_memories := supporting.map (fun m => m.id)
    importance_score := 8 }

/-- Embed `ReflectionEngine.should_reflect` (agents/reflection_engine.py:41-55):
`importance_accumulator >= threshold`. -/
def ReflectionEngine.should_reflect (st : AgentState) (reflection_threshold : ℚ) : Bool :=
  decide (reflection_threshold ≤ st.importance_accumulator)

/-- Embed `ReflectionEngine.update_importance_accumulator`
(agents/reflection_engine.py:126-142): `+= importance_delta` on the in-memory
state (the subsequent store write does not change the value). -/
def ReflectionEngine.update_importance_accumulator (st : AgentState)
    (importance_delta : ℚ) : AgentState :=
  { st with importance_accumulator := st.importance_accumulator + importance_delta }

/-- Embed `ReflectionEngine._reset_importance_accumulator`
(agents/reflection_engine.py:241-254): set the accumulator to exactly 0.0. -/
def ReflectionEngine.reset_importance_accumulator (st : AgentState) : AgentState :=
  { st with importance_accumulator := 0 }

/-- Embed `ReflectionEngine._update_reflection_metadata`
(agents/reflection_engine.py:256-276): record the reflection time; the
accumulator is untouched. -/
def ReflectionEngine.update_reflection_metadata (st : AgentState) (now : ℚ) : AgentState :=
  { st with last_reflection_time := some now }

/-- Embed `ReflectionEngine.trigger_reflection`
(agents/reflection_engine.py:57-104). `insights` is the Text Service's parsed
insight list (at most 3 in the source; arbitrary here). Empty candidates or
empty insights short-circuit to an empty result without touching the state;
on the success path every insight becomes a reflection, then the accumulator is
reset and the reflection metadata updated. -/
def ReflectionEngine.trigger_reflection (rows : List Memory) (agent_id : String)
    (now : ℚ) (insights : List String) (st : AgentState) :
    List Reflection × AgentState :=
  let memories := ReflectionEngine.get_reflection_memories rows agent_id now
  if memories.isEmpty then ([], st)
  else if insights.isEmpty then ([], st)
  else
    let reflections := insights.map (fun ins =>
      ReflectionEngine.create_reflection agent_id ins memories)
    let st1 := ReflectionEngine.reset_importance_accumulator st
    let st2 := ReflectionEngine.update_reflection_metadata st1 now
    (reflections, st2)

/-- Minimal view of a stored `DailyPlan` as `should_plan` reads it: the
`updated_at` timestamp (seconds). -/
structure PlanLite where
  updated_at : ℚ
deriving DecidableEq

/-- Model the call `self.memory_manager.get_recent_memories(agent.id,
since=current_plan.updated_at, limit=20)` in `PlanningEngine.should_plan`
(agents/planning_engine.py:67-71). `MemoryManager.get_recent_memories` accepts
only `agent_id`, `limit` and `hours`, so passing the keyword argument `since`
raises `TypeError` before any memory is fetched. -/
def PlanningEngine.recent_memories_since_call (rows : List Memory)
    (agent_id : String) (since : ℚ) : Except PyErr (List Memory) :=
  .error .typeError

/-- Embed `PlanningEngine.should_plan` (agents/planning_engine.py:43-83):
no plan for today, or plan older than 6 hours, or at least 3 high-importance
(>= 7.0) memories among the recent ones; any exception inside the `try` is
caught and yields `False`, so the `TypeError` from the third check makes that
branch always return `False`. -/
def PlanningEngine.should_plan (now : ℚ) (current_plan : Option PlanLite)
    (rows : List Memory) (agent_id : String) : Bool :=
  match current_plan with
  | none => true
  | some p =>
    if 6 < (now - p.updated_at) / 3600 then true
    else
      match PlanningEngine.recent_memories_since_call rows agent_id p.updated_at with
      | .error _ => false
      | .ok recent =>
        decide (3 ≤ (recent.filter (fun m => decide ((7 : ℚ) ≤ m.importance_score))).length)

/-- Claimed behaviour of `should_plan`, written from the spec sentence for C1:
condition (c) counts the memories of the agent with importance at least 7.0
created since the plan was last updated. -/
def shouldPlanClaim (now : ℚ) (current_plan : Option PlanLite)
    (rows : List Memory) (agent_id : String) : Bool :=
  match current_plan with
  | none => true
  | some p =>
    if 6 < (now - p.updated_at) / 3600 then true
    else
      decide (3 ≤ (rows.filter (fun m =>
        decide (m.agent_id = agent_id) && decide (p.updated_at ≤ m.timestamp) &&
        decide ((7 : ℚ) ≤ m.importance_score))).length)

/-- Python `datetime.time` value as the planning engine stores it. The fields
are unconstrained naturals so that the *claimed* parse of an out-of-range
range such as `25:00` is expressible; `pyTimeValid` is the constructor's
validity check. -/
structure PyTime where
  hour : Nat
  minute : Nat
deriving DecidableEq

/-- Validity check of the `datetime.time(hour, minute)` constructor: it raises
`ValueError` unless `0 <= hour <= 23` and `0 <= minute <= 59`. -/
def pyTimeValid (h m : Nat) : Bool := decide (h ≤ 23) && decide (m ≤ 59)

/-- Numeric value of a digit character. -/
def digitVal (c : Char) : Nat := c.toNat - ('0' : Char).toNat

/-- Greedy candidates for the regex group `(\d{1,2})` at the head of the
input: two digits first, then one, following the backtracking order of
`re.search`. Each candidate is the parsed value with the rest of the input. -/
def hourCandidates : List Char → List (Nat × List Char)
  | a :: b :: rest =>
    if a.isDigit && b.isDigit then
      [(digitVal a * 10 + digitVal b, rest), (digitVal a, b :: rest)]
    else if a.isDigit then [(digitVal a, b :: rest)] else []
  | [a] => if a.isDigit then [(digitVal a, [])] else []
  | [] => []

/-- Match the regex group `(\d{2})` exactly. -/
def matchMinute : List Char → Option (Nat × List Char)
  | a :: b :: rest =>
    if a.isDigit && b.isDigit then some (digitVal a * 10 + digitVal b, rest) else none
  | _ => none

/-- Match one literal character. -/
def matchSep (c : Char) : List Char → Option (List Char)
  | a :: rest => if a = c then some rest else none
  | [] => none

/-- First defined value of `f` along a list, in order — the backtracking
search over greedy candidates. -/
def firstSome {α β : Type} (f : α → Option β) : List α → Option β
  | [] => none
  | a :: as =>
    match f a with
    | some b => some b
    | none => firstSome f as

/-- Match `(\d{1,2}):(\d{2})` at the head of the input (the end-time half of
the range regex), backtracking over the greedy hour group. -/
def matchEndTime (l : List Char) : Option (Nat × Nat) :=
  firstSome (fun p =>
    match matchSep (':' : Char) p.2 with
    | none => none
    | some r1 =>
      match matchMinute r1 with
      | none => none
      | some (m2, _) => some (p.1, m2)) (hourCandidates l)

/-- Match the full pattern `(\d{1,2}):(\d{2})-(\d{1,2}):(\d{2})` anchored at
the head of the input. -/
def matchRangeAt (l : List Char) : Option (Nat × Nat × Nat × Nat) :=
  firstSome (fun p =>
    match matchSep (':' : Char) p.2 with
    | none => none
    | some r1 =>
      match matchMinute r1 with
      | none => none
      | some (m1, r2) =>
        match matchSep ('-' : Char) r2 with
        | none => none
        | some r3 =>
          match matchEndTime r3 with
          | none => none
          | some (h2, m2) => some (p.1, m1, h2, m2)) (hourCandidates l)

/-- Model `re.search` for the time-range pattern: try every start position
left to right. -/
def searchRange : List Char → Option (Nat × Nat × Nat × Nat)
  | [] => none
  | c :: rest =>
    match matchRangeAt (c :: rest) with
    | some r => some r
    | none => searchRange rest

/-- Duration in minutes between two clock times, treating an end at or before
the start as next-day only when strictly earlier (`if end_dt < start_dt`). -/
def wrapDuration (startM endM : Nat) : Nat :=
  if endM < startM then endM + 1440 - startM else endM - startM

/-- Embed `PlanningEngine._parse_time_range` (agents/planning_engine.py:420-463).
An explicit `HH:MM-HH:MM` match is converted with `datetime.time`, whose
`ValueError` on out-of-range values is caught by the surrounding handler and
yields `(time(12, 0), 120)`. Otherwise the first period name contained in the
lowercased text (dict order: morning, afternoon, evening) selects its default
window, and everything else falls back to the afternoon window. -/
def PlanningEngine.parse_time_range (s : String) : PyTime × Nat :=
  match searchRange s.toList with
  | some (h1, m1, h2, m2) =>
    if pyTimeValid h1 m1 && pyTimeValid h2 m2 then
      (⟨h1, m1⟩, wrapDuration (h1 * 60 + m1) (h2 * 60 + m2))
    else (⟨12, 0⟩, 120)
  | none =>
    if decide (("morning".toList) <:+: s.toList.map Char.toLower) then (⟨9, 0⟩, 180)
    else if decide (("afternoon".toList) <:+: s.toList.map Char.toLower) then (⟨13, 0⟩, 240)
    else if decide (("evening".toList) <:+: s.toList.map Char.toLower) then (⟨18, 0⟩, 180)
    else (⟨13, 0⟩, 240)

/-- Claimed behaviour of `_parse_time_range`, written from the spec sentence
for C8: an explicit `HH:MM-HH:MM` string maps to that start time with the
wrapped minute difference, period names map to their default windows, and
every other input maps to the afternoon window. -/
def parseTimeRangeClaim (s : String) : PyTime × Nat :=
  match searchRange s.toList with
  | some (h1, m1, h2, m2) =>
    (⟨h1, m1⟩, wrapDuration (h1 * 60 + m1) (h2 * 60 + m2))
  | none =>
    if decide (("morning".toList) <:+: s.toList.map Char.toLower) then (⟨9, 0⟩, 180)
    else if decide (("afternoon".toList) <:+: s.toList.map Char.toLower) then (⟨13, 0⟩, 240)
    else if decide (("evening".toList) <:+: s.toList.map Char.toLower) then (⟨18, 0⟩, 180)
    else (⟨13, 0⟩, 240)

/-- Digits of a character list as a natural number (most significant first). -/
def digitsToNat (l : List Char) : Nat := l.foldl (fun acc c => acc * 10 + digitVal c) 0

/-- Value of a regex match of `\d+\.?\d*` starting at the head of the input:
the greedy integer digits, an optional dot, then greedy fraction digits,
read as an exact rational (Python `float(...)` of the matched text). -/
def numberValueAt (l : List Char) : ℚ :=
  let ds := l.takeWhile Char.isDigit
  let rest := l.dropWhile Char.isDigit
  match rest with
  | c :: rest2 =>
    if c = ('.' : Char) then
      let fs := rest2.takeWhile Char.isDigit
      (digitsToNat ds : ℚ) + (digitsToNat fs : ℚ) / ((10 : ℚ) ^ fs.length)
    else (digitsToNat ds : ℚ)
  | [] => (digitsToNat ds : ℚ)

/-- Model `re.findall(r'\d+\.?\d*', response)[0]`: the value of the first
(leftmost) match of the number pattern, if any digit occurs at all. -/
def findFirstNumber : List Char → Option ℚ
  | [] => none
  | c :: rest =>
    if c.isDigit then some (numberValueAt (c :: rest)) else findFirstNumber rest

/-- Embed `MemoryManager._score_memory_importance`
(agents/memory_manager.py:262-318). `resp` is the Text Service completion: a
raised exception yields the 3.0 default; a response without a parseable number
yields 3.0; otherwise the first number is clamped into [0, 10] via
`max(0.0, min(10.0, score))`. -/
def MemoryManager.score_memory_importance (resp : Except PyErr String) : ℚ :=
  match resp with
  | .error _ => 3
  | .ok r =>
    match findFirstNumber r.toList with
    | none => 3
    | some q => max 0 (min 10 q)

/-- Embed `MemoryManager._store_memory_embedding`
(agents/memory_manager.py:333-358). `embed` is the embedding call, `addVec`
the vector-store insert; any exception from either is logged and swallowed,
leaving the memory without an embedding reference; on success the memory
object's `embedding_id` is set. The function never raises. -/
def MemoryManager.store_memory_embedding (embed : Except PyErr (List ℚ))
    (addVec : List ℚ → Except PyErr String) (m : Memory) : Memory :=
  match embed with
  | .error _ => m
  | .ok v =>
    match addVec v with
    | .error _ => m
    | .ok eid => { m with embedding_id := some eid }

/-- Embed `MemoryManager._store_memory` (agents/memory_manager.py:360-375).
`sqliteWrite` is the Structured Store insert (`add_memory`); on success the row
is appended to the store as created (the later in-memory `embedding_id` update
is not written back). The surrounding `except` re-raises, and since the
embedding step swallows its own failures, the call raises exactly when the
Structured Store write does. Returns the updated store and the (possibly
embedding-annotated) memory object. -/
def MemoryManager.store_memory (sqliteWrite : Except PyErr Unit)
    (embed : Except PyErr (List ℚ)) (addVec : List ℚ → Except PyErr String)
    (rows : List Memory) (m : Memory) : Except PyErr (List Memory × Memory) :=
  match sqliteWrite with
  | .error e => .error e
  | .ok _ => .ok (rows ++ [m], MemoryManager.store_memory_embedding embed addVec m)

/-- Action kinds of the per-tick decision (`models/action.py`). -/
inductive PyActionType where
  | move
  | wait
  | observe
  | interact
deriving DecidableEq

/-- Embed `LLMBehavior._generate_llm_decision` (simulation/llm_behavior.py:143-181).
`resp` is the Text Service completion; a raised exception is caught and yields
the fallback OBSERVE action; otherwise the response is parsed by
`_parse_llm_response` (itself non-raising), kept abstract here. -/
def LLMBehavior.generate_llm_decision (resp : Except PyErr String)
    (parse : String → PyActionType × String) : PyActionType × String :=
  match resp with
  | .error _ => (.observe, "Using fallback observation due to LLM error")
  | .ok r => parse r

/-- Embed `LLMBehavior.choose_action_with_reasoning`
(simulation/llm_behavior.py:36-60): build the context, then decide; any
exception in either step is caught and the safe default OBSERVE action is
returned. -/
def LLMBehavior.choose_action_with_reasoning {Ctx : Type}
    (ctx : Except PyErr Ctx) (decision : Ctx → PyActionType × String) :
    PyActionType × String :=
  match ctx with
  | .error _ => (.observe, "Fallback to observation due to decision error")
  | .ok c => decision c

/-- Serialized daily plan as the planning engine persists it: plan id (a fresh
uuid per generated plan), agent, calendar date, serialized content, status. -/
structure DailyPlanL where
  id : String
  agent_id : String
  date : String
  content : String
  status : String
deriving DecidableEq

/-- Embed `PlanningEngine.generate_daily_plan` (agents/planning_engine.py:85-122).
`llmResp` is the Text Service completion; `parsePlan` stands for
`_parse_plan_response` (None on failure) and `storeResult` for the
`_store_daily_plan` write, which re-raises into the surrounding handler.
Every exception path returns None instead of propagating. -/
def PlanningEngine.generate_daily_plan (llmResp : Except PyErr String)
    (parsePlan : String → Option DailyPlanL)
    (storeResult : DailyPlanL → Except PyErr Unit) : Option DailyPlanL :=
  match llmResp with
  | .error _ => none
  | .ok r =>
    match parsePlan r with
    | none => none
    | some p =>
      match storeResult p with
      | .error _ => none
      | .ok _ => some p

/-- Row of the `plans` table as `add_plan` writes it
(storage/sqlite_store.py:462-494). -/
structure PlanRow where
  id : String
  agent_id : String
  plan_type : String
  content : String
  date_for : Option String
  status : String
deriving DecidableEq

/-- Modelled from the spec: the plans table schema
(`storage/migrations/001_initial_schema.sql`) is not under `src/`; per the
spec's "upsert plan by (agent,type,date)", the table is modelled with a
uniqueness constraint on `(agent_id, plan_type, date_for)` in addition to the
primary key `id`. `planConflict r row` holds when an existing row `r` conflicts
with the incoming `row` on either constraint. -/
def planConflict (r row : PlanRow) : Bool :=
  decide (r.id = row.id) ||
    (decide (r.agent_id = row.agent_id) && decide (r.plan_type = row.plan_type) &&
      decide (r.date_for = row.date_for))

/-- Embed `SQLiteStore.add_plan` (storage/sqlite_store.py:462-494):
`INSERT OR REPLACE INTO plans` deletes every existing row that conflicts with
the new row on any uniqueness constraint, then inserts the new row. -/
def SQLiteStore.add_plan (table : List PlanRow) (row : PlanRow) : List PlanRow :=
  (table.filter (fun r => !(planConflict r row))) ++ [row]

/-- Embed `PlanningEngine._store_daily_plan` (agents/planning_engine.py:541-559):
persist the serialized plan with `plan_type="daily"` and the plan's date. -/
def PlanningEngine.store_daily_plan (table : List PlanRow) (p : DailyPlanL) : List PlanRow :=
  SQLiteStore.add_plan table
    { id := p.id, agent_id := p.agent_id, plan_type := "daily",
      content := p.content, date_for := some p.date, status := p.status }

/-- Plan-storage operations reachable during a run: `generate_daily_plan`
persists a fresh plan (new uuid) for today, and `update_task_status`
(agents/planning_engine.py:198-235) re-persists the mutated current plan with
its original id, type and date. Both go through `_store_daily_plan`. -/
inductive PlanOp where
  | generate (p : DailyPlanL)
  | updateTask (p : DailyPlanL)

/-- Apply one plan-storage operation to the plans table. -/
def PlanOp.apply (table : List PlanRow) : PlanOp → List PlanRow
  | .generate p => PlanningEngine.store_daily_plan table p
  | .updateTask p => PlanningEngine.store_daily_plan table p

/-- Run a sequence of plan-storage operations from a starting table. -/
def runPlanOps (ops : List PlanOp) (table : List PlanRow) : List PlanRow :=
  ops.foldl PlanOp.apply table

/-- Invariant of claim C7: at most one "daily" plan row per (agent, date). -/
def atMostOneDailyPlan (table : List PlanRow) : Prop :=
  ∀ a d, (table.filter (fun r =>
    decide (r.agent_id = a) && decide (r.plan_type = "daily") &&
      decide (r.date_for = d))).length ≤ 1

/-- Model `RetrievalWeights` (models/memory.py:72-83). -/
structure RetrievalWeights where
  semantic : ℚ
  recency : ℚ
  importance : ℚ
deriving DecidableEq

/-- Embed pydantic-v2 construction/validation of `RetrievalWeights`
(models/memory.py:72-83): the field validators enforce `ge=0.0, le=1.0` on
each weight. The class also defines `__post_init__`, but that hook belongs to
dataclasses and pydantic `BaseModel` never invokes it, so no sum check runs
during construction. -/
def RetrievalWeights.construct (s r i : ℚ) : Except PyErr RetrievalWeights :=
  if 0 ≤ s ∧ s ≤ 1 ∧ 0 ≤ r ∧ r ≤ 1 ∧ 0 ≤ i ∧ i ≤ 1 then .ok ⟨s, r, i⟩
  else .error .valueError

/-- Embed the body of `RetrievalWeights.__post_init__` as written
(models/memory.py:79-83): raise `ValueError` when the weights differ from 1.0
by more than 1e-6. Construction never calls this (see
`RetrievalWeights.construct`). -/
def RetrievalWeights.post_init_check (w : RetrievalWeights) : Except PyErr Unit :=
  if 1 / 1000000 < |w.semantic + w.recency + w.importance - 1| then .error .valueError
  else .ok ()

/-- Embed `Settings.validate_retrieval_weights` (config/settings.py:76-80):
raise `ValueError` when the three configured weights differ from 1.0 by more
than 1e-6. -/
def Settings.validate_retrieval_weights (semantic_weight recency_weight importance_weight : ℚ) :
    Except PyErr Unit :=
  if 1 / 1000000 < |semantic_weight + recency_weight + importance_weight - 1| then
    .error .valueError
  else .ok ()

/-- Embed `get_settings` (config/settings.py:88-93): build the settings (the
weight fields carry no per-field bounds) and run
`validate_retrieval_weights`; a validation error aborts startup. -/
def get_settings (s r i : ℚ) : Except PyErr (ℚ × ℚ × ℚ) :=
  match Settings.validate_retrieval_weights s r i with
  | .error e => .error e
  | .ok _ => .ok (s, r, i)

/-- Embed `MemoryManager._calculate_time_decay`
(agents/memory_manager.py:320-331): exponential decay with a 24-hour
half-life, `exp(-hours_ago * log 2 / 24)`. -/
noncomputable def MemoryManager.calculate_time_decay (hours_ago : ℝ) : ℝ :=
  Real.exp (-hours_ago * Real.log 2 / 24)

/-- Model `MemorySearchResult` (models/memory.py:105-113). -/
structure MemorySearchResult where
  memory : Memory
  score : ℝ
  semantic_score : ℝ
  recency_score : ℝ
  importance_score : ℝ

/-- One enhanced result of `retrieve_relevant_memories`
(agents/memory_manager.py:144-173): recency from the time decay of the
memory's age in hours, importance normalized from 0-10 to 0-1, and the hybrid
score with the fixed default weights 0.6/0.2/0.2. -/
noncomputable def MemoryManager.enhanceResult (now : ℚ) (m : Memory) (semantic : ℝ) :
    MemorySearchResult :=
  let hours_ago : ℝ := ((now : ℝ) - (m.timestamp : ℝ)) / 3600
  let recency := MemoryManager.calculate_time_decay hours_ago
  let importance := (m.importance_score : ℝ) / 10
  { memory := m
    score := 0.6 * semantic + 0.2 * recency + 0.2 * importance
    semantic_score := semantic
    recency_score := recency
    importance_score := importance }

/-- Candidate enhancement loop of `retrieve_relevant_memories`: for each
`(memory_id, semantic_score)` pair from the vector search, load the memory
from the Structured Store (`lookup`); a missing row or a per-candidate
exception is skipped. Results keep the vector store's encounter order. -/
noncomputable def MemoryManager.enhancedResults (now : ℚ)
    (lookup : String → Option Memory) (vres : List (String × ℝ)) :
    List MemorySearchResult :=
  vres.filterMap (fun p => (lookup p.1).map (fun m => MemoryManager.enhanceResult now m p.2))

/-- Comparator of the final ranking: `sort(key=lambda x: x.score, reverse=True)`
is a stable descending sort by score. -/
noncomputable def scoreDesc (a b : MemorySearchResult) : Bool := decide (b.score ≤ a.score)

/-- Embed `MemoryManager.retrieve_relevant_memories`
(agents/memory_manager.py:111-188). `external` packages the context-embedding
call and the vector search (which requests `2*limit` candidates); any raised
exception at that level is caught and yields the empty list. On success the
enhanced candidates are stably sorted by descending score and truncated to
`limit`. -/
noncomputable def MemoryManager.retrieve_relevant_memories
    (external : Except PyErr (List (String × ℝ))) (lookup : String → Option Memory)
    (now : ℚ) (limit : Nat) : List MemorySearchResult :=
  match external with
  | .error _ => []
  | .ok vres =>
    ((MemoryManager.enhancedResults now lookup vres).mergeSort scoreDesc).take limit

/-- Whether the embedding pipeline of `_store_memory_embedding` fails: either
the embedding call raises, or the vector-store insert raises. -/
def embeddingPipelineFails (embed : Except PyErr (List ℚ))
    (addVec : List ℚ → Except PyErr String) : Prop :=
  match embed with
  | .error _ => True
  | .ok v => ∃ e, addVec v = .error e

/-- Claim C10: `MemoryManager.get_recent_memories` is independent of its
`hours` argument — the wrapper never forwards it to the store, so no
lookback-window filter is applied — even though the underlying store supports
such a filter (witnessed by an input on which the store's `hours` filter would
change the result). -/
theorem C10_get_recent_memories_hours_independent :
    (∀ (rows : List Memory) (agent_id : String) (limit : Nat) (h1 h2 now : ℚ),
      MemoryManager.get_recent_memories rows agent_id limit h1 now =
        MemoryManager.get_recent_memories rows agent_id limit h2 now) ∧
    (∃ (rows : List Memory) (agent_id : String) (limit : Nat) (h now : ℚ),
      SQLiteStore.get_recent_memories rows agent_id limit none none (some h) now ≠
        MemoryManager.get_recent_memories rows agent_id limit h now) := by
  constructor
  · intro rows agent_id limit h1 h2 now
    rfl
  · exact ⟨[⟨"m1", "a", "c", .action, 0, 8, none, none⟩], "a", 10, 72, 400 * 3600,
      by norm_num [SQLiteStore.get_recent_memories, MemoryManager.get_recent_memories,
        List.filter]⟩

/-- Claim C4: `should_reflect` is false strictly below the threshold;
`update_importance_accumulator` adds exactly its delta; once the accumulator
reaches the threshold `should_reflect` is true; and a `trigger_reflection`
that produced reflections leaves the accumulator at exactly 0. -/
theorem C4_reflection_accumulator (st : AgentState) (th d : ℚ)
    (rows : List Memory) (aid : String) (now : ℚ) (insights : List String) :
    (st.importance_accumulator < th → ReflectionEngine.should_reflect st th = false) ∧
    (ReflectionEngine.update_importance_accumulator st d).importance_accumulator =
      st.importance_accumulator + d ∧
    (th ≤ st.importance_accumulator + d →
      ReflectionEngine.should_reflect (ReflectionEngine.update_importance_accumulator st d) th =
        true) ∧
    ((ReflectionEngine.trigger_reflection rows aid now insights st).1 ≠ [] →
      (ReflectionEngine.trigger_reflection rows aid now insights st).2.importance_accumulator =
        0) := by
  refine ⟨?_, rfl, ?_, ?_⟩
  · intro h
    simp [ReflectionEngine.should_reflect, decide_eq_false_iff_not]
    exact h
  · intro h
    simp [ReflectionEngine.should_reflect, ReflectionEngine.update_importance_accumulator]
    exact h
  · intro h
    by_cases hm : (ReflectionEngine.get_reflection_memories rows aid now).isEmpty
    · simp [ReflectionEngine.trigger_reflection, hm] at h
    · by_cases hi : insights.isEmpty
      · simp [ReflectionEngine.trigger_reflection, hm, hi] at h
      · simp [ReflectionEngine.trigger_reflection, hm, hi,
          ReflectionEngine.reset_importance_accumulator,
          ReflectionEngine.update_reflection_metadata]

/-- Witness for C4 at a concrete state: threshold 30, accumulator 5, delta 25,
one action memory and one insight so that reflection actually fires. -/
theorem C4_reflection_accumulator_witness :
    ReflectionEngine.should_reflect ⟨5, none⟩ 30 = false ∧
    (ReflectionEngine.update_importance_accumulator ⟨5, none⟩ 25).importance_accumulator =
      5 + 25 ∧
    ReflectionEngine.should_reflect (ReflectionEngine.update_importance_accumulator ⟨5, none⟩ 25)
      30 = true ∧
    (ReflectionEngine.trigger_reflection [⟨"m1", "a", "c", .action, 0, 8, none, none⟩]
      "a" 0 ["insight"] ⟨5, none⟩).2.importance_accumulator = 0 := by
  obtain ⟨p1, p2, p3, p4⟩ :=
    C4_reflection_accumulator ⟨5, none⟩ 30 25
      [⟨"m1", "a", "c", .action, 0, 8, none, none⟩] "a" 0 ["insight"]
  refine ⟨p1 (by norm_num), p2, p3 (by norm_num), p4 ?_⟩
  simp [ReflectionEngine.trigger_reflection, ReflectionEngine.get_reflection_memories,
    MemoryManager.get_recent_memories, SQLiteStore.get_recent_memories, List.filter]

/-- Claim C5: `_store_memory` raises exactly when the Structured Store write
fails; when that write succeeds but the embedding pipeline fails, the call
returns normally and the memory is persisted unchanged (no embedding
reference is attached). -/
theorem C5_store_memory_failure_semantics (sq : Except PyErr Unit)
    (embed : Except PyErr (List ℚ)) (addVec : List ℚ → Except PyErr String)
    (rows : List Memory) (m : Memory) :
    ((∃ e, MemoryManager.store_memory sq embed addVec rows m = .error e) ↔
      (∃ e, sq = .error e)) ∧
    (sq = .ok () → embeddingPipelineFails embed addVec →
      MemoryManager.store_memory sq embed addVec rows m = .ok (rows ++ [m], m) ∧
        m ∈ rows ++ [m]) := by
  constructor
  · cases sq with
    | error e => simp [MemoryManager.store_memory]
    | ok u => simp [MemoryManager.store_memory]
  · intro hsq hfail
    subst hsq
    have hm : MemoryManager.store_memory_embedding embed addVec m = m := by
      cases embed with
      | error e => rfl
      | ok v =>
        obtain ⟨e, he⟩ := hfail
        simp [MemoryManager.store_memory_embedding, he]
    refine ⟨?_, by simp⟩
    simp [MemoryManager.store_memory, hm]

/-- Witness for C5 at concrete inputs: a successful store write and a failing
embedding call leave the memory persisted unchanged. -/
theorem C5_store_memory_witness :
    MemoryManager.store_memory (.ok ()) (.error .valueError) (fun _ => .ok "e") []
      ⟨"m1", "a", "c", .action, 0, 8, none, none⟩ =
      .ok ([⟨"m1", "a", "c", .action, 0, 8, none, none⟩],
        ⟨"m1", "a", "c", .action, 0, 8, none, none⟩) :=
  (C5_store_memory_failure_semantics (.ok ()) (.error .valueError) (fun _ => .ok "e") []
    ⟨"m1", "a", "c", .action, 0, 8, none, none⟩).2 rfl trivial |>.1

/-- Claim C9 (code evaluated at the failing input): weights 0.5/0.2/0.2 sum to
0.9, off from 1.0 by far more than 1e-6, yet `RetrievalWeights` construction
succeeds because pydantic never runs `__post_init__`; the check as written
would have rejected them, and the `Settings` startup validation does reject
the same values. -/
theorem C9_retrieval_weights_validation_gap :
    RetrievalWeights.construct (1/2) (1/5) (1/5) = .ok ⟨1/2, 1/5, 1/5⟩ ∧
    (1/1000000 : ℚ) < |(1/2 : ℚ) + 1/5 + 1/5 - 1| ∧
    RetrievalWeights.post_init_check ⟨1/2, 1/5, 1/5⟩ = .error .valueError ∧
    Settings.validate_retrieval_weights (1/2) (1/5) (1/5) = .error .valueError ∧
    get_settings (1/2) (1/5) (1/5) = .error .valueError := by
  have habs : |(1 : ℚ)/2 + 1/5 + 1/5 - 1| = 1/10 := by
    rw [show (1 : ℚ)/2 + 1/5 + 1/5 - 1 = -(1/10) by norm_num, abs_neg,
      abs_of_nonneg (by norm_num : (0 : ℚ) ≤ 1/10)]
  have hval : Settings.validate_retrieval_weights (1/2) (1/5) (1/5) = .error .valueError := by
    unfold Settings.validate_retrieval_weights
    rw [if_pos (by rw [habs]; norm_num)]
  refine ⟨?_, ?_, ?_, hval, ?_⟩
  · unfold RetrievalWeights.construct
    rw [if_pos (by norm_num)]
  · rw [habs]; norm_num
  · unfold RetrievalWeights.post_init_check
    rw [if_pos (by rw [habs]; norm_num)]
  · unfold get_settings
    rw [hval]

/-- Claim C1 (code evaluated at the failing input): with a plan updated one
hour ago and three importance-8 memories formed since, `should_plan` returns
false — its third check calls `get_recent_memories` with the unsupported
keyword argument `since`, raising a `TypeError` that the surrounding handler
turns into false — while the claimed rule returns true. Conditions (a) and
(b) do behave as claimed. -/
theorem C1_should_plan_memory_trigger_unreachable :
    PlanningEngine.should_plan 3600 (some ⟨0⟩)
      [⟨"m1", "a", "c", .action, 10, 8, none, none⟩,
       ⟨"m2", "a", "c", .action, 20, 8, none, none⟩,
       ⟨"m3", "a", "c", .action, 30, 8, none, none⟩] "a" = false ∧
    shouldPlanClaim 3600 (some ⟨0⟩)
      [⟨"m1", "a", "c", .action, 10, 8, none, none⟩,
       ⟨"m2", "a", "c", .action, 20, 8, none, none⟩,
       ⟨"m3", "a", "c", .action, 30, 8, none, none⟩] "a" = true ∧
    PlanningEngine.should_plan 3600 none [] "a" = true ∧
    PlanningEngine.should_plan (8 * 3600) (some ⟨0⟩) [] "a" = true := by
  refine ⟨?_, ?_, rfl, ?_⟩
  · norm_num [PlanningEngine.should_plan, PlanningEngine.recent_memories_since_call]
  · norm_num [shouldPlanClaim, List.filter]
  · norm_num [PlanningEngine.should_plan]

/-- Counterexample for C8: the string `25:00-26:00` matches the range regex,
so the claim maps it to start 25:00 with duration 60 (and in no reading to
the afternoon default), but `datetime.time(25, 0)` raises `ValueError` and the
code's exception handler returns noon for 120 minutes instead. -/
theorem C8_invalid_hour_counterexample :
    PlanningEngine.parse_time_range "25:00-26:00" = (⟨12, 0⟩, 120) ∧
    parseTimeRangeClaim "25:00-26:00" = (⟨25, 0⟩, 60) ∧
    ((⟨12, 0⟩ : PyTime), 120) ≠ ((⟨25, 0⟩ : PyTime), 60) ∧
    ((⟨12, 0⟩ : PyTime), 120) ≠ ((⟨13, 0⟩ : PyTime), 240) := by
  refine ⟨by decide, by decide, by decide, by decide⟩

/-- Claim C8 as amended: an explicit `HH:MM-HH:MM` match whose numbers form
valid clock times maps to that start and the wrapped minute difference; a
match with an out-of-range hour or minute falls to the exception default of
12:00 for 120 minutes; otherwise the first contained period name (morning,
afternoon, evening — checked in that order) selects its default window, and
any remaining input defaults to the afternoon window. -/
theorem C8_parse_time_range_amended (s : String) (h1 m1 h2 m2 : Nat) :
    (searchRange s.toList = some (h1, m1, h2, m2) →
      (pyTimeValid h1 m1 && pyTimeValid h2 m2) = true →
      PlanningEngine.parse_time_range s =
        (⟨h1, m1⟩, wrapDuration (h1 * 60 + m1) (h2 * 60 + m2))) ∧
    (searchRange s.toList = some (h1, m1, h2, m2) →
      (pyTimeValid h1 m1 && pyTimeValid h2 m2) = false →
      PlanningEngine.parse_time_range s = (⟨12, 0⟩, 120)) ∧
    (searchRange s.toList = none →
      ("morning".toList <:+: s.toList.map Char.toLower) →
      PlanningEngine.parse_time_range s = (⟨9, 0⟩, 180)) ∧
    (searchRange s.toList = none →
      ¬ ("morning".toList <:+: s.toList.map Char.toLower) →
      ("afternoon".toList <:+: s.toList.map Char.toLower) →
      PlanningEngine.parse_time_range s = (⟨13, 0⟩, 240)) ∧
    (searchRange s.toList = none →
      ¬ ("morning".toList <:+: s.toList.map Char.toLower) →
      ¬ ("afternoon".toList <:+: s.toList.map Char.toLower) →
      ("evening".toList <:+: s.toList.map Char.toLower) →
      PlanningEngine.parse_time_range s = (⟨18, 0⟩, 180)) ∧
    (searchRange s.toList = none →
      ¬ ("morning".toList <:+: s.toList.map Char.toLower) →
      ¬ ("afternoon".toList <:+: s.toList.map Char.toLower) →
      ¬ ("evening".toList <:+: s.toList.map Char.toLower) →
      PlanningEngine.parse_time_range s = (⟨13, 0⟩, 240)) ∧
    PlanningEngine.parse_time_range "09:00-12:00" = (⟨9, 0⟩, 180) ∧
    PlanningEngine.parse_time_range "morning" = (⟨9, 0⟩, 180) ∧
    PlanningEngine.parse_time_range "22:00-01:00" = (⟨22, 0⟩, 180) := by
  refine ⟨?_, ?_, ?_, ?_, ?_, ?_, by decide, by decide, by decide⟩
  · intro h hv
    unfold PlanningEngine.parse_time_range
    rw [h]
    simp [hv]
  · intro h hv
    unfold PlanningEngine.parse_time_range
    rw [h]
    simp [hv]
  · intro h hmor
    unfold PlanningEngine.parse_time_range
    rw [h]
    have hm2 : ['m', 'o', 'r', 'n', 'i', 'n', 'g'] <:+: List.map Char.toLower s.data := by
      simpa using hmor
    simp [hm2]
  · intro h hmor haft
    unfold PlanningEngine.parse_time_range
    rw [h]
    have hm2 : ¬ (['m', 'o', 'r', 'n', 'i', 'n', 'g'] <:+: List.map Char.toLower s.data) := by
      simpa using hmor
    have ha2 : ['a', 'f', 't', 'e', 'r', 'n', 'o', 'o', 'n'] <:+:
        List.map Char.toLower s.data := by
      simpa using haft
    simp [hm2, ha2]
  · intro h hmor haft hev
    unfold PlanningEngine.parse_time_range
    rw [h]
    have hm2 : ¬ (['m', 'o', 'r', 'n', 'i', 'n', 'g'] <:+: List.map Char.toLower s.data) := by
      simpa using hmor
    have ha2 : ¬ (['a', 'f', 't', 'e', 'r', 'n', 'o', 'o', 'n'] <:+:
        List.map Char.toLower s.data) := by
      simpa using haft
    have he2 : ['e', 'v', 'e', 'n', 'i', 'n', 'g'] <:+: List.map Char.toLower s.data := by
      simpa using hev
    simp [hm2, ha2, he2]
  · intro h hmor haft hev
    unfold PlanningEngine.parse_time_range
    rw [h]
    have hm2 : ¬ (['m', 'o', 'r', 'n', 'i', 'n', 'g'] <:+: List.map Char.toLower s.data) := by
      simpa using hmor
    have ha2 : ¬ (['a', 'f', 't', 'e', 'r', 'n', 'o', 'o', 'n'] <:+:
        List.map Char.toLower s.data) := by
      simpa using haft
    have he2 : ¬ (['e', 'v', 'e', 'n', 'i', 'n', 'g'] <:+: List.map Char.toLower s.data) := by
      simpa using hev
    simp [hm2, ha2, he2]

/-- Witness for C8 at the concrete input `18:00-21:00`. -/
theorem C8_parse_time_range_witness :
    searchRange ("18:00-21:00".toList) = some (18, 0, 21, 0) ∧
    PlanningEngine.parse_time_range "18:00-21:00" = (⟨18, 0⟩, 180) := by
  have h := (C8_parse_time_range_amended "18:00-21:00" 18 0 21 0).1 (by decide) (by decide)
  have h2 : wrapDuration (18 * 60 + 0) (21 * 60 + 0) = 180 := by decide
  exact ⟨by decide, by rw [h, h2]⟩

/-- Transitivity of the stable descending importance comparator. -/
theorem impDesc_trans : ∀ a b c, impDesc a b → impDesc b c → impDesc a c := by
  intro a b c hab hbc
  simp [impDesc] at *
  exact le_trans hbc hab

/-- Totality of the stable descending importance comparator. -/
theorem impDesc_total : ∀ a b, impDesc a b || impDesc b a := by
  intro a b
  simp [impDesc]
  exact le_total _ _

/-- A sorted prefix: the first `k` elements of a merge-sorted list are
pairwise ordered by the comparator. -/
theorem pairwise_take_mergeSort {α : Type} (le : α → α → Bool)
    (trans : ∀ a b c, le a b → le b c → le a c)
    (total : ∀ a b, le a b || le b a) (l : List α) (k : Nat) :
    ((l.mergeSort le).take k).Pairwise (fun a b => le a b = true) :=
  List.Pairwise.sublist (List.take_sublist k _) (List.sorted_mergeSort trans total l)

/-- Memberships of the store query trace back to the underlying rows. -/
theorem mem_of_mem_sqlite_recent (rows : List Memory) (agent_id : String)
    (limit : Nat) (memory_types : Option (List MemoryType)) (since : Option ℚ)
    (hours : Option ℚ) (now : ℚ) (m : Memory)
    (h : m ∈ SQLiteStore.get_recent_memories rows agent_id limit memory_types since hours now) :
    m ∈ rows := by
  unfold SQLiteStore.get_recent_memories at h
  have h1 := List.mem_of_mem_take h
  rw [List.mem_mergeSort] at h1
  exact (List.mem_filter.mp h1).1

/-- Counterexample for C2: a single ACTION memory created 100 hours ago (now =
360000 s, timestamp 0). The claimed 72-hour window would leave no candidate,
but the code returns the memory — the `hours=72` argument never reaches the
store, so no window is applied. -/
theorem C2_candidates_ignore_72h_window :
    ReflectionEngine.get_reflection_memories
      [⟨"m1", "a", "c", .action, 0, 8, none, none⟩] "a" 360000 =
      [⟨"m1", "a", "c", .action, 0, 8, none, none⟩] ∧
    reflectionCandidatesClaim
      [⟨"m1", "a", "c", .action, 0, 8, none, none⟩] "a" 360000 = [] ∧
    (360000 : ℚ) - 0 > 72 * 3600 := by
  refine ⟨?_, ?_, by norm_num⟩
  · simp [ReflectionEngine.get_reflection_memories, MemoryManager.get_recent_memories,
      SQLiteStore.get_recent_memories, List.filter]
  · norm_num [reflectionCandidatesClaim, SQLiteStore.get_recent_memories, List.filter]

/-- Claim C2 as amended: the candidates are gathered from the most recent at
most 50 memories regardless of age (the 72-hour argument is accepted by the
wrapper but never forwarded to the store), exclude every REFLECTION memory,
are sorted by importance descending and truncated to the top 20; and when the
agent's stored memories are all of type REFLECTION, `trigger_reflection`
returns an empty list. -/
theorem C2_reflection_candidates (rows : List Memory) (aid : String) (now : ℚ)
    (insights : List String) (st : AgentState) :
    (ReflectionEngine.get_reflection_memories rows aid now).length ≤ 20 ∧
    (∀ m ∈ ReflectionEngine.get_reflection_memories rows aid now,
      m.memory_type ≠ MemoryType.reflection) ∧
    (ReflectionEngine.get_reflection_memories rows aid now).Pairwise
      (fun a b => b.importance_score ≤ a.importance_score) ∧
    (∀ m ∈ ReflectionEngine.get_reflection_memories rows aid now,
      m ∈ MemoryManager.get_recent_memories rows aid 50 72 now) ∧
    ((∀ m ∈ rows, m.memory_type = MemoryType.reflection) →
      (ReflectionEngine.trigger_reflection rows aid now insights st).1 = []) := by
  have hmem : ∀ m ∈ ReflectionEngine.get_reflection_memories rows aid now,
      m ∈ MemoryManager.get_recent_memories rows aid 50 72 now ∧
        m.memory_type ≠ MemoryType.reflection := by
    intro m hm
    unfold ReflectionEngine.get_reflection_memories at hm
    have h1 := List.mem_of_mem_take hm
    rw [List.mem_mergeSort] at h1
    have h2 := List.mem_filter.mp h1
    exact ⟨h2.1, of_decide_eq_true h2.2⟩
  refine ⟨?_, fun m hm => (hmem m hm).2, ?_, fun m hm => (hmem m hm).1, ?_⟩
  · exact List.length_take_le 20 _
  · have hp := pairwise_take_mergeSort impDesc impDesc_trans impDesc_total
      ((MemoryManager.get_recent_memories rows aid 50 72 now).filter
        (fun m => decide (m.memory_type ≠ MemoryType.reflection))) 20
    refine List.Pairwise.imp ?_ hp
    intro a b hab
    simpa [impDesc] using hab
  · intro hall
    have hempty : ReflectionEngine.get_reflection_memories rows aid now = [] := by
      rw [List.eq_nil_iff_forall_not_mem]
      intro m hm
      have h1 := (hmem m hm).2
      have h2 : m ∈ rows :=
        mem_of_mem_sqlite_recent rows aid 50 none none none now m (hmem m hm).1
      exact h1 (hall m h2)
    simp [ReflectionEngine.trigger_reflection, hempty]

/-- Witness for C2 at a concrete store holding only REFLECTION memories:
`trigger_reflection` returns no reflections. -/
theorem C2_reflection_candidates_witness :
    (ReflectionEngine.trigger_reflection
      [⟨"r1", "a", "c", .reflection, 0, 8, none, none⟩] "a" 0 ["i"] ⟨5, none⟩).1 = [] := by
  refine (C2_reflection_candidates
    [⟨"r1", "a", "c", .reflection, 0, 8, none, none⟩] "a" 0 ["i"] ⟨5, none⟩).2.2.2.2 ?_
  intro m hm
  simp at hm
  rw [hm]

/-- Claim C6: whenever the Text Service call raises, each core operation
returns its documented default instead of propagating: importance scoring
returns exactly 3.0 (also on an unparseable response, and a parsed number is
clamped into [0, 10]), retrieval returns the empty list, the per-tick decision
falls back to OBSERVE (for a failing decision call and for a failing context
build alike), and daily-plan generation returns none. -/
theorem C6_text_service_failure_defaults (e : PyErr)
    (parse : String → PyActionType × String)
    (parsePlan : String → Option DailyPlanL)
    (storeResult : DailyPlanL → Except PyErr Unit)
    (lookup : String → Option Memory) (now : ℚ) (limit : Nat) (s : String) (q : ℚ) :
    MemoryManager.score_memory_importance (.error e) = 3 ∧
    (findFirstNumber s.toList = none → MemoryManager.score_memory_importance (.ok s) = 3) ∧
    (findFirstNumber s.toList = some q →
      MemoryManager.score_memory_importance (.ok s) = max 0 (min 10 q)) ∧
    MemoryManager.retrieve_relevant_memories (.error e) lookup now limit = [] ∧
    (LLMBehavior.generate_llm_decision (.error e) parse).1 = .observe ∧
    (LLMBehavior.choose_action_with_reasoning (.ok ())
      (fun _ => LLMBehavior.generate_llm_decision (.error e) parse)).1 = .observe ∧
    (LLMBehavior.choose_action_with_reasoning (.error e : Except PyErr Unit)
      (fun _ => LLMBehavior.generate_llm_decision (.ok s) parse)).1 = .observe ∧
    PlanningEngine.generate_daily_plan (.error e) parsePlan storeResult = none := by
  refine ⟨rfl, ?_, ?_, rfl, rfl, rfl, rfl, rfl⟩
  · intro h
    show ((match findFirstNumber s.toList with
          | none => (3 : ℚ)
          | some n => (max 0 (min 10 n) : ℚ)) : ℚ) = (3 : ℚ)
    rw [h]
  · intro h
    show ((match findFirstNumber s.toList with
          | none => (3 : ℚ)
          | some n => (max 0 (min 10 n) : ℚ)) : ℚ) = max 0 (min 10 q)
    rw [h]

/-- Witness for C6 at concrete responses: a response without digits scores the
3.0 default, and a response containing `8` scores the clamped parsed value. -/
theorem C6_text_service_failure_defaults_witness :
    MemoryManager.score_memory_importance (.ok "no score given") = 3 ∧
    MemoryManager.score_memory_importance (.ok "8") = max 0 (min 10 8) := by
  constructor
  · exact (C6_text_service_failure_defaults .valueError (fun r => (.observe, r))
      (fun _ => none) (fun _ => .ok ()) (fun _ => none) 0 5 "no score given" 0).2.1
      (by decide)
  · exact (C6_text_service_failure_defaults .valueError (fun r => (.observe, r))
      (fun _ => none) (fun _ => .ok ()) (fun _ => none) 0 5 "8" 8).2.2.1
      (by decide)


/-- One upsert preserves the at-most-one-daily-plan-per-(agent, date)
invariant: every row conflicting on the modelled `(agent_id, plan_type,
date_for)` uniqueness constraint is deleted before the insert. -/
theorem add_plan_preserves_daily (table : List PlanRow) (row : PlanRow)
    (h : atMostOneDailyPlan table) : atMostOneDailyPlan (SQLiteStore.add_plan table row) := by
  intro a d
  unfold SQLiteStore.add_plan
  rw [List.filter_append, List.length_append]
  by_cases hrow :
      (decide (row.agent_id = a) && decide (row.plan_type = "daily") &&
        decide (row.date_for = d)) = true
  · have hkey : row.agent_id = a ∧ row.plan_type = "daily" ∧ row.date_for = d := by
      simpa [Bool.and_eq_true, decide_eq_true_eq, and_assoc] using hrow
    have hnone : ((table.filter (fun r => !(planConflict r row))).filter (fun r =>
        decide (r.agent_id = a) && decide (r.plan_type = "daily") &&
          decide (r.date_for = d))).length = 0 := by
      rw [List.length_eq_zero, List.filter_eq_nil_iff]
      intro r hr hp
      have hc : planConflict r row = false := by
        simpa using (List.mem_filter.mp hr).2
      have hrk : r.agent_id = a ∧ r.plan_type = "daily" ∧ r.date_for = d := by
        simpa [Bool.and_eq_true, decide_eq_true_eq, and_assoc] using hp
      have hc2 : planConflict r row = true := by
        unfold planConflict
        simp [hrk.1, hrk.2.1, hrk.2.2, hkey.1, hkey.2.1, hkey.2.2]
      simp [hc2] at hc
    rw [hnone]
    simp [List.filter, hrow]
  · have hone : (List.filter (fun r =>
        decide (r.agent_id = a) && decide (r.plan_type = "daily") &&
          decide (r.date_for = d)) [row]).length = 0 := by
      simp [List.filter, hrow]
    rw [hone]
    have hsub : List.Sublist
        ((table.filter (fun r => !(planConflict r row))).filter (fun r =>
          decide (r.agent_id = a) && decide (r.plan_type = "daily") &&
            decide (r.date_for = d)))
        (table.filter (fun r =>
          decide (r.agent_id = a) && decide (r.plan_type = "daily") &&
            decide (r.date_for = d))) :=
      (List.filter_sublist table).filter _
    have h1 := hsub.length_le
    have h2 := h a d
    omega

/-- Claim C7: starting from any plans table satisfying the invariant, any
sequence of `generate_daily_plan` and `update_task_status` persistence
operations leaves at most one "daily" plan row per (agent, date): plan
persistence upserts by (agent, type, date). -/
theorem C7_at_most_one_daily_plan (table : List PlanRow)
    (hinv : atMostOneDailyPlan table) (ops : List PlanOp) :
    atMostOneDailyPlan (runPlanOps ops table) := by
  induction ops generalizing table with
  | nil => exact hinv
  | cons op rest ih =>
    cases op with
    | generate p => exact ih _ (add_plan_preserves_daily _ _ hinv)
    | updateTask p => exact ih _ (add_plan_preserves_daily _ _ hinv)

/-- Witness for C7: two fresh-uuid daily plans generated for the same agent
and date, starting from the empty table, leave a single authoritative row. -/
theorem C7_at_most_one_daily_plan_witness :
    atMostOneDailyPlan (runPlanOps
      [PlanOp.generate ⟨"p1", "a", "2026-10-12", "c1", "pending"⟩,
       PlanOp.generate ⟨"p2", "a", "2026-10-12", "c2", "pending"⟩] []) :=
  C7_at_most_one_daily_plan [] (fun a d => by simp) _

/-- Transitivity of the descending score comparator. -/
theorem scoreDesc_trans : ∀ a b c, scoreDesc a b → scoreDesc b c → scoreDesc a c := by
  intro a b c h1 h2
  simp [scoreDesc] at *
  exact le_trans h2 h1

/-- Totality of the descending score comparator. -/
theorem scoreDesc_total : ∀ a b, scoreDesc a b || scoreDesc b a := by
  intro a b
  simp [scoreDesc]
  exact le_total _ _

/-- Stability of `mergeSort`: a class of pairwise-related elements is left in
its original order, so filtering it out of the sorted list gives exactly the
filtered input. -/
theorem filter_mergeSort_of_all {α : Type} (le : α → α → Bool)
    (trans : ∀ a b c, le a b → le b c → le a c)
    (total : ∀ a b, le a b || le b a) (p : α → Bool)
    (hp : ∀ a b, p a = true → p b = true → le a b = true) (l : List α) :
    (l.mergeSort le).filter p = l.filter p := by
  have hpw : (l.filter p).Pairwise (fun a b => le a b = true) := by
    apply List.pairwise_of_forall_mem_list
    intro a ha b hb
    exact hp a b (List.mem_filter.mp ha).2 (List.mem_filter.mp hb).2
  have hsub : List.Sublist (l.filter p) (l.mergeSort le) :=
    List.sublist_mergeSort trans total hpw (List.filter_sublist l)
  have hsub2 : List.Sublist ((l.filter p).filter p) ((l.mergeSort le).filter p) :=
    hsub.filter p
  have hself : (l.filter p).filter p = l.filter p := by
    simp [List.filter_filter]
  rw [hself] at hsub2
  have hlen : ((l.mergeSort le).filter p).length = (l.filter p).length :=
    ((List.mergeSort_perm l le).filter p).length_eq
  exact (hsub2.eq_of_length hlen.symm).symm

/-- Filtering a `take`-prefix yields a prefix of the filtered list. -/
theorem filter_take_ex {α : Type} (l : List α) (k : Nat) (p : α → Bool) :
    ∃ n, (l.take k).filter p = (l.filter p).take n := by
  refine ⟨((l.take k).filter p).length, ?_⟩
  have hsplit : l.filter p = (l.take k).filter p ++ (l.drop k).filter p := by
    rw [← List.filter_append, List.take_append_drop]
  rw [hsplit, List.take_left]

/-- The decay of a brand-new memory is 1. -/
theorem calculate_time_decay_zero : MemoryManager.calculate_time_decay 0 = 1 := by
  unfold MemoryManager.calculate_time_decay
  norm_num

/-- The decay at 24 hours is exactly one half. -/
theorem calculate_time_decay_half_life : MemoryManager.calculate_time_decay 24 = 1/2 := by
  unfold MemoryManager.calculate_time_decay
  rw [show (-24 : ℝ) * Real.log 2 / 24 = -Real.log 2 by ring, Real.exp_neg,
    Real.exp_log (by norm_num : (0:ℝ) < 2)]
  norm_num

/-- The decay is strictly decreasing in age. -/
theorem calculate_time_decay_strictAnti : StrictAnti MemoryManager.calculate_time_decay := by
  intro a b hab
  unfold MemoryManager.calculate_time_decay
  apply Real.exp_lt_exp.mpr
  have hl : 0 < Real.log 2 := Real.log_pos (by norm_num)
  nlinarith

/-- The decay is positive. -/
theorem calculate_time_decay_pos (h : ℝ) : 0 < MemoryManager.calculate_time_decay h :=
  Real.exp_pos _

/-- The decay of a non-negative age is at most 1. -/
theorem calculate_time_decay_le_one (h : ℝ) (hh : 0 ≤ h) :
    MemoryManager.calculate_time_decay h ≤ 1 := by
  unfold MemoryManager.calculate_time_decay
  rw [Real.exp_le_one_iff]
  have hl : 0 ≤ Real.log 2 := Real.log_nonneg (by norm_num)
  nlinarith

/-- Every enhanced result comes from a vector-search pair and a store row. -/
theorem mem_enhancedResults {now : ℚ} {lookup : String → Option Memory}
    {vres : List (String × ℝ)} {r : MemorySearchResult}
    (h : r ∈ MemoryManager.enhancedResults now lookup vres) :
    ∃ p ∈ vres, ∃ m, lookup p.1 = some m ∧ r = MemoryManager.enhanceResult now m p.2 := by
  unfold MemoryManager.enhancedResults at h
  rw [List.mem_filterMap] at h
  obtain ⟨p, hp, hmap⟩ := h
  rw [Option.map_eq_some'] at hmap
  obtain ⟨m, hm, hr⟩ := hmap
  exact ⟨p, hp, m, hm, hr.symm⟩



/-- Claim C3: on every successful call, each returned result scores
`0.6*semantic + 0.2*recency + 0.2*(importance/10)` with
`recency = exp(-hours_ago * ln 2 / 24)` (1 at age 0, 1/2 at 24 hours,
strictly decreasing); the score lies in [0, 1] whenever the semantic input is
in [0, 1], the memory is not from the future and its importance is in [0, 10];
the result has at most `limit` elements, is sorted non-increasingly by score,
and ties keep the candidates' encounter order (each equal-score class of the
output is a prefix of that class in the enhanced candidate list). -/
theorem C3_retrieve_relevant_memories_ranking (vres : List (String × ℝ))
    (lookup : String → Option Memory) (now : ℚ) (limit : Nat)
    (hsem : ∀ p ∈ vres, 0 ≤ p.2 ∧ p.2 ≤ 1)
    (hts : ∀ i m, lookup i = some m → m.timestamp ≤ now)
    (himp : ∀ i m, lookup i = some m → 0 ≤ m.importance_score ∧ m.importance_score ≤ 10) :
    (MemoryManager.retrieve_relevant_memories (.ok vres) lookup now limit).length ≤ limit ∧
    (MemoryManager.retrieve_relevant_memories (.ok vres) lookup now limit).Pairwise
      (fun a b => b.score ≤ a.score) ∧
    (∀ r ∈ MemoryManager.retrieve_relevant_memories (.ok vres) lookup now limit,
      r.score = 0.6 * r.semantic_score + 0.2 * r.recency_score + 0.2 * r.importance_score ∧
      r.recency_score =
        MemoryManager.calculate_time_decay (((now : ℝ) - (r.memory.timestamp : ℝ)) / 3600) ∧
      r.importance_score = (r.memory.importance_score : ℝ) / 10) ∧
    (∀ r ∈ MemoryManager.retrieve_relevant_memories (.ok vres) lookup now limit,
      0 ≤ r.score ∧ r.score ≤ 1) ∧
    MemoryManager.calculate_time_decay 0 = 1 ∧
    MemoryManager.calculate_time_decay 24 = 1/2 ∧
    StrictAnti MemoryManager.calculate_time_decay ∧
    (∀ c : ℝ, ∃ n,
      (MemoryManager.retrieve_relevant_memories (.ok vres) lookup now limit).filter
        (fun r => decide (r.score = c)) =
      ((MemoryManager.enhancedResults now lookup vres).filter
        (fun r => decide (r.score = c))).take n) := by
  have hres : MemoryManager.retrieve_relevant_memories (.ok vres) lookup now limit =
      ((MemoryManager.enhancedResults now lookup vres).mergeSort scoreDesc).take limit := rfl
  have hmemin : ∀ r ∈ MemoryManager.retrieve_relevant_memories (.ok vres) lookup now limit,
      r ∈ MemoryManager.enhancedResults now lookup vres := by
    intro r hr
    rw [hres] at hr
    have h1 := List.mem_of_mem_take hr
    rwa [List.mem_mergeSort] at h1
  refine ⟨?_, ?_, ?_, ?_, calculate_time_decay_zero, calculate_time_decay_half_life,
    calculate_time_decay_strictAnti, ?_⟩
  · rw [hres]
    exact List.length_take_le _ _
  · rw [hres]
    have hp := pairwise_take_mergeSort scoreDesc scoreDesc_trans scoreDesc_total
      (MemoryManager.enhancedResults now lookup vres) limit
    refine List.Pairwise.imp ?_ hp
    intro a b hab
    simpa [scoreDesc] using hab
  · intro r hr
    obtain ⟨p, hp, m, hm, hrm⟩ := mem_enhancedResults (hmemin r hr)
    subst hrm
    refine ⟨rfl, rfl, rfl⟩
  · intro r hr
    obtain ⟨p, hp, m, hm, hrm⟩ := mem_enhancedResults (hmemin r hr)
    subst hrm
    have hs := hsem p hp
    have ht := hts p.1 m hm
    have hi := himp p.1 m hm
    have hhours : (0 : ℝ) ≤ ((now : ℝ) - (m.timestamp : ℝ)) / 3600 := by
      have hc : (m.timestamp : ℝ) ≤ (now : ℝ) := by exact_mod_cast ht
      have h0 : (0 : ℝ) ≤ (now : ℝ) - (m.timestamp : ℝ) := by linarith
      exact div_nonneg h0 (by norm_num)
    have hrec1 := calculate_time_decay_le_one (((now : ℝ) - (m.timestamp : ℝ)) / 3600) hhours
    have hrec0 := (calculate_time_decay_pos (((now : ℝ) - (m.timestamp : ℝ)) / 3600)).le
    have him0 : (0 : ℝ) ≤ (m.importance_score : ℝ) / 10 := by
      have hcast : (0 : ℝ) ≤ (m.importance_score : ℝ) := by exact_mod_cast hi.1
      linarith
    have him1 : (m.importance_score : ℝ) / 10 ≤ 1 := by
      have hcast : (m.importance_score : ℝ) ≤ 10 := by exact_mod_cast hi.2
      linarith
    simp only [MemoryManager.enhanceResult]
    constructor
    · nlinarith [hs.1]
    · nlinarith [hs.2]
  · intro c
    rw [hres]
    obtain ⟨n, hn⟩ := filter_take_ex
      ((MemoryManager.enhancedResults now lookup vres).mergeSort scoreDesc) limit
      (fun r => decide (r.score = c))
    rw [hn, filter_mergeSort_of_all scoreDesc scoreDesc_trans scoreDesc_total _
      (fun a b ha hb => by
        simp [scoreDesc, of_decide_eq_true ha, of_decide_eq_true hb])]
    exact ⟨n, rfl⟩


/-- Witness for C3 at one concrete candidate with semantic score 1/2,
importance 5 and age 0. -/
theorem C3_retrieve_ranking_witness :
    (MemoryManager.retrieve_relevant_memories (.ok [("m1", (1/2 : ℝ))])
      (fun i => if i = "m1" then some ⟨"m1", "a", "c", .action, 0, 5, none, none⟩ else none) 0 5).length ≤ 5 ∧
    (∀ r ∈ MemoryManager.retrieve_relevant_memories (.ok [("m1", (1/2 : ℝ))])
      (fun i => if i = "m1" then some ⟨"m1", "a", "c", .action, 0, 5, none, none⟩ else none) 0 5,
      0 ≤ r.score ∧ r.score ≤ 1) := by
  have h := C3_retrieve_relevant_memories_ranking [("m1", (1/2 : ℝ))]
    (fun i => if i = "m1" then some ⟨"m1", "a", "c", .action, 0, 5, none, none⟩ else none) 0 5
    (by
      intro p hp
      simp at hp
      rw [hp]
      norm_num)
    (by
      intro i m hm
      by_cases hc : i = "m1"
      · simp [hc] at hm
        subst hm
        norm_num
      · simp [hc] at hm)
    (by
      intro i m hm
      by_cases hc : i = "m1"
      · simp [hc] at hm
        subst hm
        norm_num
      · simp [hc] at hm)
  exact ⟨h.1, h.2.2.2.1⟩
